import Mathlib

/-!
Shallow embedding of the geminichatbotv6 request-routing layer.

Each namespace below embeds one source module of the repository:

* `JsStr`              — small helpers mirroring the JavaScript string
                         primitives the routes use (`includes`, `startsWith`,
                         `toLowerCase`, `trim`, `substring(0, n)`), all
                         executed over `List Char`.
* `GenerateImageRoute` — `app/generate-image/route.ts` `POST`.
* `EditImageRoute`     — `app/edit-image/route.ts` `POST` (parameter
                         remapping, URL-recovery cascade, error classifier).
* `ImageUrlValidator`  — `lib/image-url-validator.ts`.
* `WaveSpeed`          — `lib/wavespeed-multi-client.ts` poll loop.
* `EditMultiImageRoute`— `app/edit-multi-image/route.ts` `POST`.
* `ProgressStore`      — the image progress zustand store.
* `ImageUtils`         — `lib/image-utils.ts` `saveGeneratedImages`.
* `SearchIntent`       — `lib/search-intent-detector.ts`.

Network, databases and `localStorage` are modelled as explicit oracle
parameters: every external call site of the source receives its outcome from
a parameter of the Lean function, and the Lean function computes exactly the
branching the source performs on those outcomes.
-/

namespace JsStr

/-- Check that `pat` occurs as a contiguous sublist of `s`
(the character-level content of JavaScript `s.includes(pat)`). -/
def listHasSub (pat : List Char) : List Char → Bool
  | [] => pat.isPrefixOf ([] : List Char)
  | c :: rest => pat.isPrefixOf (c :: rest) || listHasSub pat rest

/-- JavaScript `s.includes(pat)`. -/
def jsIncludes (s pat : String) : Bool :=
  listHasSub pat.data s.data

/-- JavaScript `s.startsWith(pat)`. -/
def jsStartsWith (s pat : String) : Bool :=
  pat.data.isPrefixOf s.data

/-- JavaScript `s.toLowerCase()` (ASCII case folding; every keyword the
detector compares against is ASCII). -/
def jsToLower (s : String) : String :=
  String.mk (s.data.map Char.toLower)

/-- JavaScript `s.trim()`. -/
def jsTrim (s : String) : String :=
  String.mk (((s.data.dropWhile Char.isWhitespace).reverse.dropWhile
    Char.isWhitespace).reverse)

/-- JavaScript `s.substring(0, n)`. -/
def jsSubstring (s : String) (n : Nat) : String :=
  String.mk (s.data.take n)

/-- JavaScript `arr.slice(-n)` for `n > 0`: the at most `n` last elements. -/
def jsSliceLast (l : List α) (n : Nat) : List α :=
  l.drop (l.length - n)

end JsStr

namespace GenerateImageRoute

open JsStr

/-- Outcome of the validate-and-dispatch prefix of the `generate-image`
`POST` handler, up to (and not including) the first provider call. -/
inductive GenOutcome
  | badRequest (error : String)      -- `NextResponse.json(..., status 400)`
  | serverError (error : String)     -- `NextResponse.json(..., status 500)`
  | openaiCall                       -- enters the GPT-Image-1 provider branch
  | replicateCall                    -- enters the Replicate provider branch
deriving DecidableEq, Repr

/-- JavaScript truthiness test `!prompt` for an optional string field of the
parsed JSON body: `undefined` and the empty string are falsy. -/
def jsFalsyStr : Option String → Bool
  | none => true
  | some s => s.isEmpty

/-- The three Replicate model names accepted by the handler. -/
def replicateModels : List String :=
  ["flux-kontext-pro", "flux-kontext-max", "flux-dev-ultra-fast"]

/-- Quality remapping of `app/generate-image/route.ts` lines 50–58: start
from `medium`, map `hd` to `high` and `standard` to `medium`. -/
def mappedQuality (quality : String) : String :=
  if quality = "hd" then "high"
  else if quality = "standard" then "medium"
  else "medium"

/-- Validation and model dispatch of `app/generate-image/route.ts` `POST`
(lines 14–190): missing prompt, per-model API-key checks, unknown model.
`hasOpenAIKey` and `hasReplicateKey` are the truthiness of
`process.env.OPENAI_API_KEY` / `process.env.REPLICATE_API_KEY`. -/
def generateImagePOST (prompt : Option String) (model : String)
    (hasOpenAIKey hasReplicateKey : Bool) : GenOutcome :=
  if jsFalsyStr prompt then .badRequest "Prompt is required"
  else if model = "gpt-image-1" then
    if !hasOpenAIKey then .serverError "OpenAI API key not configured"
    else .openaiCall
  else if model = "flux-kontext-pro" ∨ model = "flux-kontext-max" ∨
      model = "flux-dev-ultra-fast" then
    if !hasReplicateKey then .serverError "Replicate API key not configured"
    else .replicateCall
  else .badRequest ("Unsupported model: " ++ model)

end GenerateImageRoute

namespace EditImageRoute

open JsStr

/-- Quality remapping of `app/edit-image/route.ts` lines 71–77: start from
`medium`, map `standard` to `medium` and `hd` to `high`. -/
def gptQuality (quality : String) : String :=
  if quality = "standard" then "medium"
  else if quality = "hd" then "high"
  else "medium"

/-- The sizes GPT-Image-1 accepts (`validSizes`, line 103). -/
def validSizes : List String :=
  ["1024x1024", "1536x1024", "1024x1536"]

/-- Size remapping of `app/edit-image/route.ts` lines 102–116. -/
def actualSize (size : String) : String :=
  if size = "1792x1024" then "1536x1024"
  else if size = "1024x1536" then "1024x1536"
  else if !(validSizes.contains size) then "1024x1024"
  else size

/-- The arguments the handler passes to `smartEditWithGPTImage1`
(lines 149–154). -/
structure GptEditCall where
  size : String
  quality : String
  style : String
deriving DecidableEq, Repr

/-- The slice of the GPT-Image-1 success path the remapping claim is about:
what is sent to the provider versus what the response metadata echoes
(lines 149–178). -/
structure GptEditResponsePart where
  providerCall : GptEditCall
  metaQuality : String
  metaSize : String
deriving DecidableEq, Repr

/-- GPT-Image-1 edit path of the handler: the provider receives the remapped
`actualSize` and `gptQuality`, while the JSON `metadata` echoes the request's
original `quality` and `size` (lines 149–178). -/
def gptImageEditPath (quality style size : String) : GptEditResponsePart :=
  { providerCall := { size := actualSize size, quality := gptQuality quality,
                      style := style }
    metaQuality := quality
    metaSize := size }

end EditImageRoute

namespace EditImageRoute

open JsStr

/-- The vendor error object the catch block inspects: `error.message`,
`error.code`, `error.type` (an absent `message` behaves as the empty string
under the optional-chained `includes`). -/
structure VendorError where
  message : String
  code : Option String := none
  type : Option String := none
deriving DecidableEq, Repr

/-- HTTP status and top-level `error` string of a classified response. -/
structure ClassifiedError where
  status : Nat
  error : String
deriving DecidableEq, Repr

/-- Error classifier of the `POST` handler's catch block
(`app/edit-image/route.ts` lines 338–403): an if/else chain of substring
tests on the vendor error text, falling through to a 500. -/
def classifyEditError (e : VendorError) : ClassifiedError :=
  if jsIncludes e.message "invalid_request_error" then
    { status := 400, error := "Invalid request" }
  else if jsIncludes e.message "rate_limit_exceeded" then
    { status := 429, error := "Rate limit exceeded" }
  else if jsIncludes e.message "404 Client Error" &&
      jsIncludes e.message "replicate.delivery" then
    { status := 400, error := "Image URL expired" }
  else if jsIncludes e.message "safety system" ||
      e.code == some "moderation_blocked" ||
      e.type == some "image_generation_user_error" then
    { status := 400, error := "Content not allowed" }
  else if jsIncludes e.message "model_not_found" then
    { status := 400, error := "Model not available" }
  else
    { status := 500, error := "Failed to edit image" }

end EditImageRoute

namespace ImageUrlValidator

open JsStr

/-- Check of `lib/image-url-validator.ts` `isReplicateDeliveryUrl`
(line 97–99). -/
def isReplicateDeliveryUrl (url : String) : Bool :=
  jsIncludes url "replicate.delivery"

end ImageUrlValidator

namespace EditImageRoute

open JsStr ImageUrlValidator

/-- Outcome of the initial HEAD accessibility fetch
(`fetch(imageUrl, HEAD)`, line 200): it resolves ok, resolves non-ok,
or rejects (network error / 5s timeout). -/
inductive HeadOutcome
  | ok
  | notOk (status : Nat)
  | throwErr
deriving DecidableEq, Repr

/-- The external world the recovery cascade consults.

* `head` — outcome of the HEAD fetch of `imageUrl`;
* `db` — `getImageByLocalId(imageId)?.url`, assumed stable across the
  (up to two) lookups the handler performs;
* `ensureResults` — outcomes of the successive `ensureImageUrlAccessible`
  calls, consumed in order; `none` means the call threw, and an exhausted
  list also throws. -/
structure RecoveryWorld where
  head : HeadOutcome
  db : Option String
  ensureResults : List (Option String)
deriving DecidableEq, Repr

/-- Result of the URL-recovery section (lines 191–290): either control falls
through to the `replicateClient.editImage` call with `validImageUrl`, or the
handler replies 400 and Replicate is never called. -/
inductive RecoveryResult
  | proceed (validImageUrl : String)
  | expired (error suggestion : String)
deriving DecidableEq, Repr

/-- Pop the next `ensureImageUrlAccessible` outcome. -/
def takeEnsure : List (Option String) → Option String × List (Option String)
  | [] => (none, [])
  | r :: rest => (r, rest)

/-- The 400 payload the handler builds when recovery fails
(lines 245–259 and 272–286 carry the same `error` and `suggestion`). -/
def expiredResponse : RecoveryResult :=
  .expired "Image URL expired or inaccessible"
    "To edit this image, please save it to your device first, then upload it again."

/-- The `catch (error)` block of the recovery section (lines 224–289):
database fallback when an `imageId` is present and the URL is a
`replicate.delivery` URL, then a final download attempt, then the 400. -/
def recoveryCatch (ensureResults : List (Option String)) (imageUrl : String)
    (imageId : Option String) (db : Option String) : RecoveryResult :=
  if imageId.isSome && isReplicateDeliveryUrl imageUrl then
    match db with
    | some u => .proceed u
    | none =>
      match takeEnsure ensureResults with
      | (some dataUrl, _) => .proceed dataUrl
      | (none, _) => expiredResponse
  else
    match takeEnsure ensureResults with
    | (some dataUrl, _) => .proceed dataUrl
    | (none, _) => expiredResponse

/-- URL-recovery cascade of the flux-kontext branch of
`app/edit-image/route.ts` `POST` (lines 191–290).

Data URLs and Vercel blob URLs skip the check.  Otherwise the handler HEAD
checks the URL; on a non-ok response it tries the database (when `imageId`
is present and the URL is a `replicate.delivery` URL) and then
`ensureImageUrlAccessible`; a throw anywhere in that `try` lands in the
catch block, which runs the same fallbacks once more before replying 400. -/
def recoverImageUrl (w : RecoveryWorld) (imageUrl : String)
    (imageId : Option String) : RecoveryResult :=
  if !(jsStartsWith imageUrl "data:") &&
      !(jsIncludes imageUrl "blob.vercel-storage.com") then
    match w.head with
    | .ok => .proceed imageUrl
    | .notOk _ =>
      if imageId.isSome && isReplicateDeliveryUrl imageUrl then
        match w.db with
        | some u => .proceed u
        | none =>
          match takeEnsure w.ensureResults with
          | (some dataUrl, _) => .proceed dataUrl
          | (none, rest) => recoveryCatch rest imageUrl imageId w.db
      else
        match takeEnsure w.ensureResults with
        | (some dataUrl, _) => .proceed dataUrl
        | (none, rest) => recoveryCatch rest imageUrl imageId w.db
    | .throwErr => recoveryCatch w.ensureResults imageUrl imageId w.db
  else .proceed imageUrl

end EditImageRoute

namespace WaveSpeed

/-- One poll of `GET {baseUrl}/predictions/{taskId}/result`
(`lib/wavespeed-multi-client.ts` lines 108–126): a non-ok HTTP response, a
JSON body (with the already-coalesced `data?.status || status`,
`data?.outputs || outputs` and the optional top-level `error`), or a rejected
fetch/json promise. -/
inductive PollOutcome
  | httpNotOk (status : Nat)
  | result (status : String) (outputs : List String) (error : Option String)
  | throwErr (msg : String)
deriving DecidableEq, Repr

/-- `WaveSpeedMultiImageResponse` (metadata omitted: the claim does not
constrain it). -/
structure WSResponse where
  success : Bool
  imageUrl : Option String := none
  taskId : Option String := none
  error : Option String := none
deriving DecidableEq, Repr

/-- `maxAttempts` of the poll loop (line 99). -/
def maxAttempts : Nat := 120

/-- Does a poll report `status === 'completed'` with a non-empty `outputs`
array (the success test of line 128)? -/
def isCompletedPoll : PollOutcome → Bool
  | .result status outputs _ => status == "completed" && !outputs.isEmpty
  | _ => false

/-- The `while (attempts < maxAttempts)` poll loop of
`generateMultiImageEdit` (lines 103–167).  `polls n` is the outcome of the
`n`-th poll (1-indexed); `fuel` is the number of loop iterations the
`while (attempts < maxAttempts)` guard still allows, so the loop state
satisfies `fuel + attempts = maxAttempts` and running out of fuel is
exactly the guard failing.  The returned pair is the number of polls
performed and either the first output URL or the error that escaped the
loop.

The `throw` on a `'failed'` status sits inside the per-attempt `try`, so it
is caught by `catch (pollError)`, which rethrows only when
`attempts >= maxAttempts`; the same holds for a rejected poll fetch.  The
loop falling off the end throws `'Task timed out after 2 minutes'`. -/
def pollLoopGo (polls : Nat → PollOutcome) :
    Nat → Nat → Nat × Except String String
  | 0, attempts => (attempts, .error "Task timed out after 2 minutes")
  | fuel + 1, attempts =>
    let a := attempts + 1
    match polls a with
    | .httpNotOk _ => pollLoopGo polls fuel a
    | .result status outputs err =>
      if h : status = "completed" ∧ outputs ≠ [] then
        (a, .ok (outputs.head h.2))
      else if status = "failed" then
        if maxAttempts ≤ a then
          (a, .error ("Task failed: " ++ err.getD "Unknown error"))
        else pollLoopGo polls fuel a
      else pollLoopGo polls fuel a
    | .throwErr m =>
      if maxAttempts ≤ a then (a, .error m) else pollLoopGo polls fuel a

/-- `generateMultiImageEdit` from a successfully submitted task onward
(submission already yielded `taskId`): run the poll loop; the outer `catch`
converts any escaped error into a `success: false` response (lines 96–179). -/
def generateMultiImageEdit (polls : Nat → PollOutcome) (taskId : String) :
    WSResponse :=
  match (pollLoopGo polls maxAttempts 0).2 with
  | .ok url => { success := true, imageUrl := some url, taskId := some taskId }
  | .error e => { success := false, error := some e }

/-- Number of polls the loop performs. -/
def pollsUsed (polls : Nat → PollOutcome) : Nat :=
  (pollLoopGo polls maxAttempts 0).1

/-- First element of a poll's `outputs` array, when the poll carried one. -/
def headOutput : PollOutcome → Option String
  | .result _ outputs _ => outputs.head?
  | _ => none

/-- The error `generateMultiImageEdit` surfaces when no poll ever reports a
completed task: the 120th poll's own error when it reports `failed` or
throws (only then does `catch (pollError)` rethrow), and the loop's
timeout message otherwise. -/
def finalPollError : PollOutcome → String
  | .result s _ e =>
    if s = "failed" then "Task failed: " ++ e.getD "Unknown error"
    else "Task timed out after 2 minutes"
  | .throwErr m => m
  | .httpNotOk _ => "Task timed out after 2 minutes"

end WaveSpeed

namespace EditMultiImageRoute

open JsStr

/-- The `images` field of the parsed body as the validation sees it:
absent, present but not an array, or an array of strings. -/
inductive JsArrVal
  | missing
  | notArray
  | arr (xs : List String)
deriving DecidableEq, Repr

/-- The `prompt` field of the parsed body: absent, a non-string value, or a
string. -/
inductive JsStrVal
  | missingS
  | notString
  | str (s : String)
deriving DecidableEq, Repr

/-- `!images || !Array.isArray(images) || images.length === 0` (line 30). -/
def imagesInvalid : JsArrVal → Bool
  | .missing => true
  | .notArray => true
  | .arr xs => xs.isEmpty

/-- `!prompt || typeof prompt !== 'string' || !prompt.trim()` (line 37). -/
def promptInvalid : JsStrVal → Bool
  | .missingS => true
  | .notString => true
  | .str s => s.isEmpty || (jsTrim s).isEmpty

/-- Outcome of the validation prefix of the `edit-multi-image` `POST`
handler (`app/edit-multi-image/route.ts` lines 29–80). -/
inductive MultiEditOutcome
  | badRequest (error : String)          -- 400, before any client exists
  | missingKey                           -- 500 WaveSpeed API key not configured
  | proceedsToClient (images : List String) (prompt : String)
      -- constructs `WaveSpeedMultiImageClient` and continues
deriving DecidableEq, Repr

/-- Validation sequence of `app/edit-multi-image/route.ts` `POST`
(lines 29–80): images shape, prompt shape, minimum 2, maximum 10, then the
`WAVESPEED_API_KEY` check, then the client is constructed. -/
def editMultiImagePOST (images : JsArrVal) (prompt : JsStrVal)
    (hasKey : Bool) : MultiEditOutcome :=
  match images with
  | .missing => .badRequest "Images array is required and must not be empty"
  | .notArray => .badRequest "Images array is required and must not be empty"
  | .arr xs =>
    if xs.isEmpty then
      .badRequest "Images array is required and must not be empty"
    else
      match prompt with
      | .missingS => .badRequest "Prompt is required"
      | .notString => .badRequest "Prompt is required"
      | .str p =>
        if p.isEmpty || (jsTrim p).isEmpty then
          .badRequest "Prompt is required"
        else if xs.length < 2 then
          .badRequest
            "At least 2 images are required for multi-image editing"
        else if 10 < xs.length then
          .badRequest "Maximum 10 images allowed for multi-image editing"
        else if !hasKey then .missingKey
        else .proceedsToClient xs p

end EditMultiImageRoute

namespace ProgressStore

/-- `ImageGenerationStage` of the progress store. -/
inductive Stage
  | initializing
  | processing
  | finalizing
  | completed
  | failed
deriving DecidableEq, Repr

/-- `status` field of an `ImageGenerationProgress` record. -/
inductive GenStatus
  | generating
  | completedStatus
  | failedStatus
deriving DecidableEq, Repr

/-- `stageRanges` table of `calculateProgressFromElapsed` (lines 100–106). -/
def stageRange : Stage → ℤ × ℤ
  | .initializing => (0, 20)
  | .processing => (20, 85)
  | .finalizing => (85, 100)
  | .completed => (100, 100)
  | .failed => (0, 0)

/-- `Math.floor(Math.max(m, Math.min(x, M)))`, the final clamp of
`calculateProgressFromElapsed` (line 125). -/
def clampFloor (m M : ℤ) (x : ℚ) : ℤ :=
  Int.floor (max (m : ℚ) (min x (M : ℚ)))

/-- `calculateProgressFromElapsed` (store lines 99–126).  JavaScript floats
are modelled as rationals; `rand` is the value `Math.random()` produced for
the variance term. -/
def calculateProgressFromElapsed (elapsedTime estimatedTotal : ℚ)
    (stage : Stage) (rand : ℚ) : ℤ :=
  let range := stageRange stage
  if stage = .completed then 100
  else if stage = .failed then 0
  else
    let timeProgress := min (elapsedTime / estimatedTotal) 1
    let smoothProgress := timeProgress * timeProgress * (3 - 2 * timeProgress)
    let calculatedProgress :=
      (range.1 : ℚ) + smoothProgress * ((range.2 : ℚ) - (range.1 : ℚ))
    let variance := (rand - 1/2) * 1
    let finalProgress := calculatedProgress + variance
    clampFloor range.1 range.2 finalProgress

/-- The fields of an `ImageGenerationProgress` record that
`calculateProgress` reads (the remaining fields only feed the stage
message and timestamps). -/
structure ProgressRecord where
  progress : ℤ
  stage : Stage
  status : GenStatus
  estimatedTotalTime : ℚ
  elapsedTime : ℤ
deriving DecidableEq, Repr

/-- The store action `calculateProgress` (lines 245–282): `none` when the
record is absent from the store, not `generating`, or unchanged enough to
skip the write; `some p` when it writes progress `p`.  `elapsedTime` is the
already-floored second count derived from `createdAt`, `rand` the
`Math.random()` draw inside `calculateProgressFromElapsed`. -/
def calculateProgress (current : ProgressRecord) (elapsedTime : ℤ)
    (rand : ℚ) : Option ℤ :=
  if current.status ≠ .generating then none
  else
    let progress := calculateProgressFromElapsed (elapsedTime : ℚ)
      current.estimatedTotalTime current.stage rand
    let progressChanged := 1 ≤ |current.progress - progress|
    let timeChanged := 1 ≤ |current.elapsedTime - elapsedTime|
    if progressChanged ∨ timeChanged then
      some (min progress (if current.stage = .completed then 100 else 99))
    else none

end ProgressStore

namespace ImageUtils

open JsStr

/-- The fields of a `GeneratedImage` that `saveGeneratedImages` reads.
`timestamp` is `some iso` for a valid `Date` and `none` for an
invalid/absent one (the serializer then falls back to the current time). -/
structure GeneratedImage where
  id : String
  url : String
  prompt : String
  timestamp : Option String
  quality : String
  model : String
  originalImageId : Option String := none
  isUploaded : Option Bool := none
  geminiUri : Option String := none
  isMultiImageEdit : Option Bool := none
  sourceImages : Option (List String) := none
  inputImages : Option (List String) := none
  isGenerating : Bool := false
deriving DecidableEq, Repr

/-- The object literal `prepareForStorage` builds per image
(`lib/image-utils.ts` lines 178–211). -/
structure StoredImage where
  id : String
  url : String
  prompt : String
  timestamp : String
  quality : String
  model : String
  originalImageId : Option String
  isUploaded : Option Bool
  geminiUri : Option String
  isMultiImageEdit : Option Bool
  sourceImages : Option (List String)
  inputImages : Option (List String)
deriving DecidableEq, Repr

/-- `prepareForStorage` for one image: truncate `url` to 500 characters and
`prompt` to 200, stringify the timestamp (falling back to `nowIso`), and
strip data URLs out of `inputImages` (lines 178–211). -/
def serializeImage (nowIso : String) (img : GeneratedImage) : StoredImage :=
  { id := img.id
    url := jsSubstring img.url 500
    prompt := jsSubstring img.prompt 200
    timestamp := img.timestamp.getD nowIso
    quality := img.quality
    model := img.model
    originalImageId := img.originalImageId
    isUploaded := img.isUploaded
    geminiUri := img.geminiUri
    isMultiImageEdit := img.isMultiImageEdit
    sourceImages := img.sourceImages
    inputImages := img.inputImages.map (List.map fun u =>
      if jsStartsWith u "data:" then "[DATA_URL_REMOVED]"
      else jsSubstring u 200) }

/-- `prepareForStorage` (lines 178–211). -/
def prepareForStorage (nowIso : String) (imgs : List GeneratedImage) :
    List StoredImage :=
  imgs.map (serializeImage nowIso)

/-- The filter of line 146–150: keep only completed images with a non-empty,
non-data URL.  (The subsequent `imagesWithExpirationInfo` map of lines
153–168 only enriches the `metadata` field, which `prepareForStorage` does
not serialize, so it is identity for every stored field.) -/
def keepImage (img : GeneratedImage) : Bool :=
  !img.isGenerating && !img.url.isEmpty && !(jsStartsWith img.url "data:")

/-- `maxSize` of the shrink loop: 4MB (line 217). -/
def maxStorageSize : Nat := 4 * 1024 * 1024

/-- The `while (dataSize > maxSize && imagesToSave.length > 5)` loop of
lines 218–222: re-slice to the most recent `floor(length * 0.7)` images
until the serialized form fits or at most 5 images remain.  `sizeOf` is the
byte size `calculateDataSize` reports for a serialized list. -/
def shrinkToFit (sizeOf : List StoredImage → Nat) (nowIso : String)
    (l : List GeneratedImage) : List GeneratedImage :=
  if maxStorageSize < sizeOf (prepareForStorage nowIso l) ∧ 5 < l.length then
    shrinkToFit sizeOf nowIso (jsSliceLast l (7 * l.length / 10))
  else l
termination_by l.length
decreasing_by
  simp only [jsSliceLast, List.length_drop]
  omega

/-- A `localStorage` operation the function attempts. -/
inductive StorageAction
  | removeItem (key : String)
  | setItem (key : String) (value : List StoredImage)
deriving DecidableEq, Repr

/-- `saveGeneratedImages` (`lib/image-utils.ts` lines 143–248) as the
sequence of `localStorage` operations it attempts, in order.  `quota1` and
`quota2` say whether the first and the retry `setItem` throw a quota error;
both failures are caught in the source, so the function always returns. -/
def saveGeneratedImages (sizeOf : List StoredImage → Nat)
    (quota1 quota2 : Bool) (nowIso : String)
    (images : List GeneratedImage) : List StorageAction :=
  let completedImages := images.filter keepImage
  if completedImages.length = 0 then []
  else
    let imagesToSave := jsSliceLast completedImages 30
    let fitted := shrinkToFit sizeOf nowIso imagesToSave
    let serialized := prepareForStorage nowIso fitted
    if !quota1 then [.setItem "generatedImages" serialized]
    else
      -- quota error: `clearOldImages()` then retry with the 10 most recent
      let minimalSerialized :=
        prepareForStorage nowIso (jsSliceLast completedImages 10)
      [.setItem "generatedImages" serialized,
       .removeItem "generatedImages", .removeItem "imageCache",
       .setItem "generatedImages" minimalSerialized]
      -- a second quota error (`quota2`) is swallowed (lines 239–242)

end ImageUtils

namespace SearchIntent

open JsStr

/-- `searchType` values of a `SearchIntent`. -/
inductive SearchType
  | current_events
  | factual
  | research
  | comparison
deriving DecidableEq, Repr

/-- `complexity` values of a `SearchIntent`. -/
inductive Complexity
  | simple
  | moderate
  | complex
deriving DecidableEq, Repr

/-- The `SearchIntent` interface (`lib/search-intent-detector.ts` lines
1–11); optional fields are `none` when the detector leaves them unset. -/
structure SearchIntentResult where
  needsSearch : Bool
  searchQuery : Option String := none
  searchType : Option SearchType := none
  timeFilter : Option String := none
  domainFilter : Option (List String) := none
  queryType : Option SearchType := none
  complexity : Option Complexity := none
  estimatedDuration : Option Nat := none
  requiresAsync : Option Bool := none
deriving DecidableEq, Repr

/-- `currentInfoKeywords` (lines 21–26). -/
def currentInfoKeywords : List String :=
  ["latest", "current", "today", "now", "recent", "news",
   "update", "2025", "2024", "this year", "this month",
   "right now", "at the moment", "currently", "breaking",
   "live", "ongoing", "happening"]

/-- `factualKeywords` (lines 29–32). -/
def factualKeywords : List String :=
  ["what is", "who is", "when did", "where is", "how does",
   "price of", "cost of", "statistics", "data", "facts about"]

/-- `researchKeywords` (lines 35–38). -/
def researchKeywords : List String :=
  ["compare", "versus", "vs", "difference between", "best",
   "top", "review", "analysis", "research", "study"]

/-- `actionExclusions` (lines 41–48). -/
def actionExclusions : List String :=
  ["generate", "create", "make", "produce", "build", "design",
   "draw", "paint", "compose", "write", "edit", "modify",
   "dialogue", "conversation", "multi-speaker", "voice", "audio",
   "tts", "text to speech", "narrate", "speak", "say",
   "image", "picture", "photo", "video", "animation",
   "download", "save", "extract"]

/-- `keywords.some(k => lowerMessage.includes(k))`. -/
def anyKeyword (lowerMessage : String) (keywords : List String) : Bool :=
  keywords.any (jsIncludes lowerMessage)

/-- JavaScript `message.split(/\s+/)`: split at maximal whitespace runs,
keeping the (possibly empty) chunks before a leading run and after a
trailing one, exactly as the regex split does. -/
def splitWsGo (inWs : Bool) (acc : List Char) : List Char → List String
  | [] => [String.mk acc.reverse]
  | c :: cs =>
    if c.isWhitespace then
      if inWs then splitWsGo true acc cs
      else String.mk acc.reverse :: splitWsGo true [] cs
    else splitWsGo false (c :: acc) cs

/-- JavaScript `message.split(/\s+/)`. -/
def splitWs (s : String) : List String :=
  splitWsGo false [] s.data

/-- `stopWords` of `countConcepts` (line 184). -/
def stopWords : List String :=
  ["the", "a", "an", "is", "are", "was", "were", "what", "when", "where",
   "who", "how", "why"]

/-- `countConcepts` (lines 178–193): distinct lowercased words longer than
3 characters that are not stop words. -/
def countConcepts (message : String) : Nat :=
  (((splitWs (jsToLower message)).filter fun w =>
    3 < w.length && !(stopWords.contains w)).eraseDups).length

/-- `assessComplexity` (lines 152–176).  The one regular-expression test,
`hasComplexTerms`, is a word-boundary match the claims never constrain; its
outcome is the oracle parameter `hasComplexTerms`. -/
def assessComplexity (message : String) (searchType : Option SearchType)
    (hasComplexTerms : Bool) : Complexity :=
  let wordCount := (splitWs message).length
  let hasMultipleQuestions := 1 < message.data.count '?'
  let hasMultipleConcepts := 2 < countConcepts message
  if searchType = some .research ∨ searchType = some .comparison then
    .complex
  else
    let complexityScore :=
      (if 50 < wordCount then 2 else if 20 < wordCount then 1 else 0) +
      (if hasMultipleQuestions then 2 else 0) +
      (if hasComplexTerms then 1 else 0) +
      (if hasMultipleConcepts then 1 else 0)
    if 4 ≤ complexityScore then .complex
    else if 2 ≤ complexityScore then .moderate
    else .simple

/-- `estimateDuration` (lines 195–205): the `baseDurations` table, with
`complexity` defaulting to `simple` and `searchType` to `factual`. -/
def estimateDuration (complexity : Option Complexity)
    (searchType : Option SearchType) : Nat :=
  match complexity.getD .simple, searchType.getD .factual with
  | .simple, .current_events => 2
  | .simple, .factual => 3
  | .simple, .research => 10
  | .simple, .comparison => 8
  | .moderate, .current_events => 5
  | .moderate, .factual => 8
  | .moderate, .research => 30
  | .moderate, .comparison => 20
  | .complex, .current_events => 10
  | .complex, .factual => 15
  | .complex, .research => 60
  | .complex, .comparison => 40

/-- The leading question words `extractSearchQuery` strips (line 135). -/
def questionWords : List String :=
  ["what", "who", "when", "where", "how", "why", "is", "are", "can",
   "could", "would", "should"]

/-- `extractSearchQuery` (lines 132–138): drop one leading question word
with its following whitespace (case-insensitively, first matching
alternative), drop a trailing question mark, trim. -/
def extractSearchQuery (message : String) : String :=
  let afterWord :=
    match questionWords.find? (fun w =>
      w.data.isPrefixOf (jsToLower message).data ∧
      ((message.data.drop w.length).head?.elim false Char.isWhitespace)) with
    | some w =>
      String.mk ((message.data.drop w.length).dropWhile Char.isWhitespace)
    | none => message
  let noQ :=
    if afterWord.data.getLast? = some '?' then
      String.mk (afterWord.data.dropLast)
    else afterWord
  jsTrim noQ

/-- `extractDomainFilter` (lines 140–150). -/
def extractDomainFilter (message : String) : Option (List String) :=
  let domains :=
    (if jsIncludes message "reddit" then ["reddit.com"] else []) ++
    (if jsIncludes message "wikipedia" then ["wikipedia.org"] else []) ++
    (if jsIncludes message "github" then ["github.com"] else []) ++
    (if jsIncludes message "stackoverflow" then ["stackoverflow.com"] else [])
  if 0 < domains.length then some domains else none

/-- `detectSearchIntent` (lines 59–130).  The five `generativePatterns`
regular expressions are tested against the raw message; their disjunction is
the oracle parameter `hasGenerativePattern`.  `hasComplexTerms` feeds
`assessComplexity` likewise. -/
def detectSearchIntent (userMessage : String)
    (hasGenerativePattern hasComplexTerms : Bool) : SearchIntentResult :=
  let lowerMessage := jsToLower userMessage
  let hasActionKeyword := anyKeyword lowerMessage actionExclusions
  if hasActionKeyword || hasGenerativePattern then { needsSearch := false }
  else
    let needsCurrentInfo := anyKeyword lowerMessage currentInfoKeywords
    let needsFactualInfo := anyKeyword lowerMessage factualKeywords
    let needsResearch := anyKeyword lowerMessage researchKeywords
    let needsSearch := needsCurrentInfo || needsFactualInfo || needsResearch
    if !needsSearch then { needsSearch := false }
    else
      let timeFilter :=
        if jsIncludes lowerMessage "today" then some "day"
        else if jsIncludes lowerMessage "this week" then some "week"
        else if jsIncludes lowerMessage "this month" then some "month"
        else if jsIncludes lowerMessage "this year" then some "year"
        else none
      let searchType : SearchType :=
        if needsCurrentInfo then .current_events
        else if needsResearch then .research
        else .factual
      let domainFilter := extractDomainFilter lowerMessage
      let complexity := assessComplexity userMessage (some searchType)
        hasComplexTerms
      let requiresAsync :=
        complexity = Complexity.complex ∨ searchType = SearchType.research
      let estimatedDuration := estimateDuration (some complexity)
        (some searchType)
      { needsSearch := true
        searchQuery := some (extractSearchQuery userMessage)
        searchType := some searchType
        timeFilter := timeFilter
        domainFilter := domainFilter
        queryType := some searchType
        complexity := some complexity
        estimatedDuration := some estimatedDuration
        requiresAsync := some (decide requiresAsync) }

end SearchIntent

/-!
Helper lemmas and the claim theorems.
-/

open JsStr GenerateImageRoute EditImageRoute ImageUrlValidator WaveSpeed
open EditMultiImageRoute ProgressStore ImageUtils SearchIntent

theorem jsSubstring_length_le (s : String) (n : Nat) :
    (JsStr.jsSubstring s n).length ≤ n := by
  show (s.data.take n).length ≤ n
  simp

theorem jsSliceLast_length_le (l : List α) (n : Nat) :
    (JsStr.jsSliceLast l n).length ≤ n := by
  simp [jsSliceLast]
  omega

theorem jsSliceLast_suffix (l : List α) (n : Nat) :
    (JsStr.jsSliceLast l n) <:+ l :=
  List.drop_suffix _ _

/-- C6: the generate-image `POST` handler validates and dispatches before any
provider call: missing prompt gives 400 "Prompt is required"; `gpt-image-1`
without `OPENAI_API_KEY` gives 500; the three flux models without
`REPLICATE_API_KEY` give 500; any other model gives 400 "Unsupported model:
<model>"; and a provider branch is entered only when the prompt is present
and the matching key is set. -/
theorem generateImage_validation_dispatch_spec (prompt : Option String)
    (model : String) (hasOpenAIKey hasReplicateKey : Bool) :
    (jsFalsyStr prompt = true →
      generateImagePOST prompt model hasOpenAIKey hasReplicateKey =
        GenOutcome.badRequest "Prompt is required")
    ∧ (jsFalsyStr prompt = false → model = "gpt-image-1" →
        hasOpenAIKey = false →
      generateImagePOST prompt model hasOpenAIKey hasReplicateKey =
        GenOutcome.serverError "OpenAI API key not configured")
    ∧ (jsFalsyStr prompt = false → model ∈ replicateModels →
        hasReplicateKey = false →
      generateImagePOST prompt model hasOpenAIKey hasReplicateKey =
        GenOutcome.serverError "Replicate API key not configured")
    ∧ (jsFalsyStr prompt = false → model ≠ "gpt-image-1" →
        model ∉ replicateModels →
      generateImagePOST prompt model hasOpenAIKey hasReplicateKey =
        GenOutcome.badRequest ("Unsupported model: " ++ model))
    ∧ (generateImagePOST prompt model hasOpenAIKey hasReplicateKey =
        GenOutcome.openaiCall →
      jsFalsyStr prompt = false ∧ model = "gpt-image-1" ∧ hasOpenAIKey = true)
    ∧ (generateImagePOST prompt model hasOpenAIKey hasReplicateKey =
        GenOutcome.replicateCall →
      jsFalsyStr prompt = false ∧ model ∈ replicateModels ∧
        hasReplicateKey = true) := by
  refine ⟨?_, ?_, ?_, ?_, ?_, ?_⟩
  · intro h
    simp [generateImagePOST, h]
  · intro h hm hk
    simp [generateImagePOST, h, hm, hk]
  · intro h hm hk
    simp only [replicateModels, List.mem_cons, List.not_mem_nil, or_false]
      at hm
    rcases hm with hm | hm | hm <;> simp [generateImagePOST, h, hm, hk]
  · intro h hm hr
    simp only [replicateModels, List.mem_cons, List.not_mem_nil, or_false,
      not_or] at hr
    simp [generateImagePOST, h, hm, hr.1, hr.2.1, hr.2.2]
  · intro h
    by_cases hp : jsFalsyStr prompt <;>
      by_cases hm : model = "gpt-image-1" <;>
      by_cases hk : hasOpenAIKey <;>
      by_cases hf : model = "flux-kontext-pro" ∨ model = "flux-kontext-max" ∨
        model = "flux-dev-ultra-fast" <;>
      by_cases hr : hasReplicateKey <;>
      simp_all [generateImagePOST]
  · intro h
    by_cases hp : jsFalsyStr prompt <;>
      by_cases hm : model = "gpt-image-1" <;>
      by_cases hk : hasOpenAIKey <;>
      by_cases hf : model = "flux-kontext-pro" ∨ model = "flux-kontext-max" ∨
        model = "flux-dev-ultra-fast" <;>
      by_cases hr : hasReplicateKey <;>
      simp_all [generateImagePOST, replicateModels]

/-- Witness for C6 at concrete inputs: an unknown model with a present
prompt gives the "Unsupported model" 400, and a missing Replicate key for a
flux model gives the 500. -/
theorem generateImage_validation_dispatch_spec_witness :
    generateImagePOST (some "a cat") "dall-e-2" true true =
      GenOutcome.badRequest ("Unsupported model: " ++ "dall-e-2")
    ∧ generateImagePOST (some "a cat") "flux-kontext-pro" true false =
      GenOutcome.serverError "Replicate API key not configured" :=
  ⟨(generateImage_validation_dispatch_spec (some "a cat") "dall-e-2" true
      true).2.2.2.1 (by decide) (by decide) (by decide),
   (generateImage_validation_dispatch_spec (some "a cat") "flux-kontext-pro"
      true false).2.2.1 (by decide) (by decide) (by decide)⟩

/-- C4: in both handlers the UI quality is remapped for GPT-Image-1 by a
fixed table — `hd` to `high`, every other value (including the default
`standard`) to `medium`; in the edit-image handler `1792x1024` is remapped
to `1536x1024`, sizes in the valid set stay, every other size becomes
`1024x1024`; and the response metadata echoes the requested quality and
size while the provider call receives the remapped values. -/
theorem image_quality_size_remap_spec (quality style size : String) :
    (quality = "hd" →
      gptQuality quality = "high" ∧ mappedQuality quality = "high")
    ∧ (quality ≠ "hd" →
      gptQuality quality = "medium" ∧ mappedQuality quality = "medium")
    ∧ actualSize "1792x1024" = "1536x1024"
    ∧ (size ∈ validSizes → actualSize size = size)
    ∧ (size ≠ "1792x1024" → size ∉ validSizes → actualSize size = "1024x1024")
    ∧ (gptImageEditPath quality style size).providerCall =
        { size := actualSize size, quality := gptQuality quality,
          style := style }
    ∧ (gptImageEditPath quality style size).metaQuality = quality
    ∧ (gptImageEditPath quality style size).metaSize = size := by
  refine ⟨?_, ?_, by decide, ?_, ?_, rfl, rfl, rfl⟩
  · intro h
    simp [gptQuality, mappedQuality, h]
  · intro h
    by_cases hs : quality = "standard" <;>
      simp [gptQuality, mappedQuality, h, hs]
  · intro h
    simp only [validSizes, List.mem_cons, List.not_mem_nil, or_false] at h
    rcases h with h | h | h <;> simp [actualSize, validSizes, h]
  · intro h1 h2
    simp only [validSizes, List.mem_cons, List.not_mem_nil, or_false,
      not_or] at h2
    simp [actualSize, validSizes, h1, h2.1, h2.2.1, h2.2.2]

/-- Witness for C4 at concrete inputs: the default quality `standard` maps
to `medium` in both handlers, the unsupported size `512x512` maps to
`1024x1024`, and the edit-image metadata echoes the original pair. -/
theorem image_quality_size_remap_spec_witness :
    (gptQuality "standard" = "medium" ∧ mappedQuality "standard" = "medium")
    ∧ actualSize "512x512" = "1024x1024"
    ∧ (gptImageEditPath "standard" "vivid" "512x512").metaQuality = "standard"
    ∧ (gptImageEditPath "standard" "vivid" "512x512").metaSize = "512x512" :=
  ⟨(image_quality_size_remap_spec "standard" "vivid" "512x512").2.1
      (by decide),
   (image_quality_size_remap_spec "standard" "vivid" "512x512").2.2.2.2.1
      (by decide) (by decide),
   (image_quality_size_remap_spec "standard" "vivid" "512x512").2.2.2.2.2.2.1,
   (image_quality_size_remap_spec "standard" "vivid"
      "512x512").2.2.2.2.2.2.2⟩

/-- C3: the edit-image catch block classifies a thrown provider error by
substring matching in a fixed first-match order: `invalid_request_error`
gives 400 "Invalid request", then `rate_limit_exceeded` gives 429, then
`404 Client Error` together with `replicate.delivery` gives 400 "Image URL
expired", then `safety system` / code `moderation_blocked` / type
`image_generation_user_error` gives 400 "Content not allowed", then
`model_not_found` gives 400 "Model not available", and anything else gives
500 "Failed to edit image". -/
theorem editImage_error_classifier_spec (e : VendorError) :
    (jsIncludes e.message "invalid_request_error" = true →
      classifyEditError e = { status := 400, error := "Invalid request" })
    ∧ (jsIncludes e.message "invalid_request_error" = false →
       jsIncludes e.message "rate_limit_exceeded" = true →
      classifyEditError e = { status := 429, error := "Rate limit exceeded" })
    ∧ (jsIncludes e.message "invalid_request_error" = false →
       jsIncludes e.message "rate_limit_exceeded" = false →
       jsIncludes e.message "404 Client Error" = true →
       jsIncludes e.message "replicate.delivery" = true →
      classifyEditError e = { status := 400, error := "Image URL expired" })
    ∧ (jsIncludes e.message "invalid_request_error" = false →
       jsIncludes e.message "rate_limit_exceeded" = false →
       (jsIncludes e.message "404 Client Error" &&
        jsIncludes e.message "replicate.delivery") = false →
       (jsIncludes e.message "safety system" = true ∨
        e.code = some "moderation_blocked" ∨
        e.type = some "image_generation_user_error") →
      classifyEditError e = { status := 400, error := "Content not allowed" })
    ∧ (jsIncludes e.message "invalid_request_error" = false →
       jsIncludes e.message "rate_limit_exceeded" = false →
       (jsIncludes e.message "404 Client Error" &&
        jsIncludes e.message "replicate.delivery") = false →
       jsIncludes e.message "safety system" = false →
       e.code ≠ some "moderation_blocked" →
       e.type ≠ some "image_generation_user_error" →
       jsIncludes e.message "model_not_found" = true →
      classifyEditError e = { status := 400, error := "Model not available" })
    ∧ (jsIncludes e.message "invalid_request_error" = false →
       jsIncludes e.message "rate_limit_exceeded" = false →
       (jsIncludes e.message "404 Client Error" &&
        jsIncludes e.message "replicate.delivery") = false →
       jsIncludes e.message "safety system" = false →
       e.code ≠ some "moderation_blocked" →
       e.type ≠ some "image_generation_user_error" →
       jsIncludes e.message "model_not_found" = false →
      classifyEditError e =
        { status := 500, error := "Failed to edit image" }) := by
  refine ⟨?_, ?_, ?_, ?_, ?_, ?_⟩
  · intro h1
    simp [classifyEditError, h1]
  · intro h1 h2
    simp [classifyEditError, h1, h2]
  · intro h1 h2 h3 h4
    simp [classifyEditError, h1, h2, h3, h4]
  · intro h1 h2 h3 h4
    rcases h4 with h4 | h4 | h4 <;>
      simp [classifyEditError, h1, h2, h3, h4]
  · intro h1 h2 h3 h4 h5 h6 h7
    simp [classifyEditError, h1, h2, h3, h4, h5, h6, h7]
  · intro h1 h2 h3 h4 h5 h6 h7
    simp [classifyEditError, h1, h2, h3, h4, h5, h6, h7]

/-- Witness for C3 at concrete vendor errors: a rate-limit message maps to
429 and an unmatched message falls through to 500. -/
theorem editImage_error_classifier_spec_witness :
    classifyEditError { message := "429 rate_limit_exceeded: slow down" } =
      { status := 429, error := "Rate limit exceeded" }
    ∧ classifyEditError { message := "ECONNRESET" } =
      { status := 500, error := "Failed to edit image" } :=
  ⟨(editImage_error_classifier_spec
      { message := "429 rate_limit_exceeded: slow down" }).2.1
      (by decide) (by decide),
   (editImage_error_classifier_spec { message := "ECONNRESET" }).2.2.2.2.2
      (by decide) (by decide) (by decide) (by decide) (by decide) (by decide)
      (by decide)⟩

/-- C10: the edit-multi-image `POST` handler returns 400 — before the
WaveSpeed client is constructed — for a missing/non-array/empty `images`,
for a missing/non-string/whitespace `prompt`, for fewer than 2 images and
for more than 10 images, in that order; the `WAVESPEED_API_KEY` 500 is
reached only after all of these validations pass, and the client is
constructed only when they pass and the key is present. -/
theorem editMultiImage_validation_order_spec (images : JsArrVal)
    (prompt : JsStrVal) (hasKey : Bool) :
    (imagesInvalid images = true →
      editMultiImagePOST images prompt hasKey =
        MultiEditOutcome.badRequest
          "Images array is required and must not be empty")
    ∧ (imagesInvalid images = false → promptInvalid prompt = true →
      editMultiImagePOST images prompt hasKey =
        MultiEditOutcome.badRequest "Prompt is required")
    ∧ (∀ xs, images = JsArrVal.arr xs → imagesInvalid images = false →
        promptInvalid prompt = false → xs.length < 2 →
      editMultiImagePOST images prompt hasKey =
        MultiEditOutcome.badRequest
          "At least 2 images are required for multi-image editing")
    ∧ (∀ xs, images = JsArrVal.arr xs → imagesInvalid images = false →
        promptInvalid prompt = false → 10 < xs.length →
      editMultiImagePOST images prompt hasKey =
        MultiEditOutcome.badRequest
          "Maximum 10 images allowed for multi-image editing")
    ∧ (editMultiImagePOST images prompt hasKey =
        MultiEditOutcome.missingKey →
      hasKey = false ∧ imagesInvalid images = false ∧
        promptInvalid prompt = false ∧
        ∃ xs, images = JsArrVal.arr xs ∧ 2 ≤ xs.length ∧ xs.length ≤ 10)
    ∧ (∀ xs p, editMultiImagePOST images prompt hasKey =
        MultiEditOutcome.proceedsToClient xs p →
      hasKey = true ∧ images = JsArrVal.arr xs ∧ prompt = JsStrVal.str p ∧
        imagesInvalid images = false ∧ promptInvalid prompt = false ∧
        2 ≤ xs.length ∧ xs.length ≤ 10) := by
  refine ⟨?_, ?_, ?_, ?_, ?_, ?_⟩
  · intro h
    cases images with
    | missing => rfl
    | notArray => rfl
    | arr xs =>
      simp only [imagesInvalid] at h
      simp [editMultiImagePOST, h]
  · intro h1 h2
    cases images with
    | missing => simp [imagesInvalid] at h1
    | notArray => simp [imagesInvalid] at h1
    | arr xs =>
      simp only [imagesInvalid] at h1
      cases prompt with
      | missingS => simp [editMultiImagePOST, h1]
      | notString => simp [editMultiImagePOST, h1]
      | str p =>
        simp only [promptInvalid] at h2
        simp [editMultiImagePOST, h1, h2]
  · intro xs hxs h1 h2 hlen
    subst hxs
    cases prompt with
    | missingS => simp [promptInvalid] at h2
    | notString => simp [promptInvalid] at h2
    | str p =>
      simp only [imagesInvalid] at h1
      simp only [promptInvalid] at h2
      simp [editMultiImagePOST, h1, h2, hlen]
  · intro xs hxs h1 h2 hlen
    subst hxs
    cases prompt with
    | missingS => simp [promptInvalid] at h2
    | notString => simp [promptInvalid] at h2
    | str p =>
      simp only [imagesInvalid] at h1
      simp only [promptInvalid] at h2
      have h3 : ¬xs.length < 2 := by
        have := List.length_pos_iff_ne_nil.mpr
          (by simpa [List.isEmpty_iff] using h1)
        omega
      simp [editMultiImagePOST, h1, h2, h3, hlen]
  · intro h
    cases images with
    | missing => simp [editMultiImagePOST] at h
    | notArray => simp [editMultiImagePOST] at h
    | arr xs =>
      by_cases he : xs.isEmpty
      · simp [editMultiImagePOST, he] at h
      · cases prompt with
        | missingS => simp [editMultiImagePOST, he] at h
        | notString => simp [editMultiImagePOST, he] at h
        | str p =>
          by_cases hp : (p.isEmpty || (jsTrim p).isEmpty) = true
          · simp [editMultiImagePOST, he, hp] at h
          · by_cases hl2 : xs.length < 2
            · simp [editMultiImagePOST, he, hp, hl2] at h
            · by_cases hl10 : 10 < xs.length
              · simp [editMultiImagePOST, he, hp, hl2, hl10] at h
              · by_cases hk : hasKey = true
                · simp [editMultiImagePOST, he, hp, hl2, hl10, hk] at h
                · refine ⟨by simpa using hk, by simpa [imagesInvalid]
                    using he, by simpa [promptInvalid] using hp,
                    xs, rfl, by omega, by omega⟩
  · intro xs p h
    cases images with
    | missing => simp [editMultiImagePOST] at h
    | notArray => simp [editMultiImagePOST] at h
    | arr ys =>
      by_cases he : ys.isEmpty
      · simp [editMultiImagePOST, he] at h
      · cases prompt with
        | missingS => simp [editMultiImagePOST, he] at h
        | notString => simp [editMultiImagePOST, he] at h
        | str q =>
          by_cases hp : (q.isEmpty || (jsTrim q).isEmpty) = true
          · simp [editMultiImagePOST, he, hp] at h
          · by_cases hl2 : ys.length < 2
            · simp [editMultiImagePOST, he, hp, hl2] at h
            · by_cases hl10 : 10 < ys.length
              · simp [editMultiImagePOST, he, hp, hl2, hl10] at h
              · by_cases hk : hasKey = true
                · have hys : ys = xs ∧ q = p := by
                    simpa [editMultiImagePOST, he, hp, hl2, hl10, hk] using h
                  obtain ⟨h1, h2⟩ := hys
                  subst h1
                  subst h2
                  refine ⟨hk, rfl, rfl, by simpa [imagesInvalid] using he,
                    by simpa [promptInvalid] using hp, by omega, by omega⟩
                · simp [editMultiImagePOST, he, hp, hl2, hl10, hk] at h

/-- Witness for C10 at concrete inputs: a single-image request gives the
minimum-images 400, and a valid two-image request with no key gives the
missing-key 500 only after all validations passed. -/
theorem editMultiImage_validation_order_spec_witness :
    editMultiImagePOST (JsArrVal.arr ["u1"]) (JsStrVal.str "merge") true =
      MultiEditOutcome.badRequest
        "At least 2 images are required for multi-image editing"
    ∧ (false = false ∧
        imagesInvalid (JsArrVal.arr ["u1", "u2"]) = false ∧
        promptInvalid (JsStrVal.str "merge") = false ∧
        ∃ xs, JsArrVal.arr ["u1", "u2"] = JsArrVal.arr xs ∧
          2 ≤ xs.length ∧ xs.length ≤ 10) :=
  ⟨(editMultiImage_validation_order_spec (JsArrVal.arr ["u1"])
      (JsStrVal.str "merge") true).2.2.1 ["u1"] rfl (by decide) (by decide)
      (by decide),
   (editMultiImage_validation_order_spec (JsArrVal.arr ["u1", "u2"])
      (JsStrVal.str "merge") false).2.2.2.2.1 (by decide)⟩

/-- C8: whenever an action-exclusion keyword occurs as a substring of the
lowercased message, or a generative pattern matches, `detectSearchIntent`
returns exactly the record with `needsSearch := false` and every other
field unset — regardless of any current-information, factual or research
keywords in the same message. -/
theorem searchIntent_action_exclusion_spec (msg : String)
    (hasGenerativePattern hasComplexTerms : Bool)
    (h : anyKeyword (jsToLower msg) actionExclusions = true ∨
      hasGenerativePattern = true) :
    detectSearchIntent msg hasGenerativePattern hasComplexTerms =
      { needsSearch := false } := by
  rcases h with h | h <;> simp [detectSearchIntent, h]

/-- Witness for C8 at a concrete message that contains both an exclusion
keyword ("image", "create") and current-information keywords ("latest",
"news", "today"). -/
theorem searchIntent_action_exclusion_spec_witness :
    anyKeyword (jsToLower "Create an image of the latest news today")
      actionExclusions = true
    ∧ detectSearchIntent "Create an image of the latest news today"
        false false = { needsSearch := false } :=
  ⟨by decide,
   searchIntent_action_exclusion_spec
     "Create an image of the latest news today" false false
     (Or.inl (by decide))⟩

/-- C9: `detectSearchIntent` never returns `searchType` `comparison`: when
`needsSearch` is true the type is `current_events` if a current-information
keyword is present, else `research` if a research keyword is present, else
`factual`; and every `research` result has complexity `complex` with
`requiresAsync` true, so the `comparison` branches of `assessComplexity`
and `estimateDuration` are unreachable through the detector. -/
theorem searchIntent_no_comparison_spec (msg : String)
    (hasGenerativePattern hasComplexTerms : Bool) :
    (detectSearchIntent msg hasGenerativePattern hasComplexTerms).searchType
      ≠ some SearchType.comparison
    ∧ ((detectSearchIntent msg hasGenerativePattern
          hasComplexTerms).needsSearch = true →
       (detectSearchIntent msg hasGenerativePattern
          hasComplexTerms).searchType =
        some (if anyKeyword (jsToLower msg) currentInfoKeywords then
                SearchType.current_events
              else if anyKeyword (jsToLower msg) researchKeywords then
                SearchType.research
              else SearchType.factual))
    ∧ ((detectSearchIntent msg hasGenerativePattern
          hasComplexTerms).searchType = some SearchType.research →
       (detectSearchIntent msg hasGenerativePattern
          hasComplexTerms).complexity = some Complexity.complex ∧
       (detectSearchIntent msg hasGenerativePattern
          hasComplexTerms).requiresAsync = some true) := by
  by_cases hact : (anyKeyword (jsToLower msg) actionExclusions ||
      hasGenerativePattern) = true
  · refine ⟨?_, ?_, ?_⟩ <;> simp [detectSearchIntent, hact]
  · by_cases hcur : anyKeyword (jsToLower msg) currentInfoKeywords = true
    · refine ⟨?_, ?_, ?_⟩ <;>
        simp [detectSearchIntent, hact, hcur]
    · by_cases hres : anyKeyword (jsToLower msg) researchKeywords = true
      · refine ⟨?_, ?_, ?_⟩ <;>
          simp [detectSearchIntent, assessComplexity, hact, hcur, hres]
      · by_cases hfac : anyKeyword (jsToLower msg) factualKeywords = true <;>
          refine ⟨?_, ?_, ?_⟩ <;>
          simp [detectSearchIntent, hact, hcur, hres, hfac]

/-- Witness for C9 at a concrete research-keyword message: the detector
reports `research`, `complex`, `requiresAsync` true and never
`comparison`. -/
theorem searchIntent_no_comparison_spec_witness :
    (detectSearchIntent "compare rust versus go" false false).searchType ≠
      some SearchType.comparison
    ∧ (detectSearchIntent "compare rust versus go" false false).searchType =
      some (if anyKeyword (jsToLower "compare rust versus go")
              currentInfoKeywords then SearchType.current_events
            else if anyKeyword (jsToLower "compare rust versus go")
              researchKeywords then SearchType.research
            else SearchType.factual)
    ∧ (detectSearchIntent "compare rust versus go" false false).complexity =
      some Complexity.complex
    ∧ (detectSearchIntent "compare rust versus go" false
        false).requiresAsync = some true :=
  ⟨(searchIntent_no_comparison_spec "compare rust versus go" false false).1,
   (searchIntent_no_comparison_spec "compare rust versus go" false
      false).2.1 (by decide),
   ((searchIntent_no_comparison_spec "compare rust versus go" false
      false).2.2 (by decide)).1,
   ((searchIntent_no_comparison_spec "compare rust versus go" false
      false).2.2 (by decide)).2⟩

theorem clampFloor_bounds (m M : ℤ) (x : ℚ) (h : m ≤ M) :
    m ≤ ProgressStore.clampFloor m M x ∧ ProgressStore.clampFloor m M x ≤ M := by
  constructor
  · exact Int.le_floor.mpr (le_max_left _ _)
  · have hx : max (m : ℚ) (min x (M : ℚ)) ≤ (M : ℚ) :=
      max_le (by exact_mod_cast h) (min_le_right _ _)
    have hf := Int.floor_mono hx
    simpa using hf

/-- C5: `calculateProgressFromElapsed` returns 100 for `completed`, 0 for
`failed`, and otherwise an integer clamped into the stage's fixed range
(initializing 0–20, processing 20–85, finalizing 85–100) even after the
random variance; and the store's `calculateProgress` never writes a
progress above 99 while the record's stage is not `completed`. -/
theorem progress_calculation_spec (elapsed estTotal : ℚ) (stage : Stage)
    (rand : ℚ) (rec : ProgressRecord) (e : ℤ)
    (he : 0 ≤ elapsed) (ht : 0 < estTotal) (hr0 : 0 ≤ rand) (hr1 : rand < 1) :
    (stage = Stage.completed →
      calculateProgressFromElapsed elapsed estTotal stage rand = 100)
    ∧ (stage = Stage.failed →
      calculateProgressFromElapsed elapsed estTotal stage rand = 0)
    ∧ ((stageRange stage).1 ≤
        calculateProgressFromElapsed elapsed estTotal stage rand ∧
       calculateProgressFromElapsed elapsed estTotal stage rand ≤
        (stageRange stage).2)
    ∧ (rec.stage ≠ Stage.completed → ∀ p,
        ProgressStore.calculateProgress rec e rand = some p → p ≤ 99) := by
  refine ⟨?_, ?_, ?_, ?_⟩
  · intro h
    simp [calculateProgressFromElapsed, h]
  · intro h
    simp [calculateProgressFromElapsed, h]
  · cases stage with
    | completed => simp [calculateProgressFromElapsed, stageRange]
    | failed => simp [calculateProgressFromElapsed, stageRange]
    | initializing =>
      simp only [calculateProgressFromElapsed]
      norm_num
      exact clampFloor_bounds _ _ _ (by decide)
    | processing =>
      simp only [calculateProgressFromElapsed]
      norm_num
      exact clampFloor_bounds _ _ _ (by decide)
    | finalizing =>
      simp only [calculateProgressFromElapsed]
      norm_num
      exact clampFloor_bounds _ _ _ (by decide)
  · intro hst p hp
    simp only [ProgressStore.calculateProgress, if_neg hst] at hp
    split at hp
    · exact absurd hp (by simp)
    · split at hp
      · simp only [Option.some.injEq] at hp
        subst hp
        exact min_le_right _ _
      · exact absurd hp (by simp)

/-- Witness for C5 at concrete inputs: halfway through a 12-second estimate
in the `processing` stage with `Math.random()` equal to one half, the
progress is clamped into 20–85, and the store writes at most 99 for a
non-completed record. -/
theorem progress_calculation_spec_witness :
    ((stageRange Stage.processing).1 ≤
      calculateProgressFromElapsed 6 12 Stage.processing (1/2) ∧
     calculateProgressFromElapsed 6 12 Stage.processing (1/2) ≤
      (stageRange Stage.processing).2)
    ∧ (∀ p, ProgressStore.calculateProgress
        { progress := 0, stage := Stage.processing,
          status := GenStatus.generating, estimatedTotalTime := 12,
          elapsedTime := 0 } 6 (1/2) = some p → p ≤ 99) :=
  ⟨(progress_calculation_spec 6 12 Stage.processing (1/2)
      { progress := 0, stage := Stage.processing,
        status := GenStatus.generating, estimatedTotalTime := 12,
        elapsedTime := 0 } 6
      (by norm_num) (by norm_num) (by norm_num) (by norm_num)).2.2.1,
   (progress_calculation_spec 6 12 Stage.processing (1/2)
      { progress := 0, stage := Stage.processing,
        status := GenStatus.generating, estimatedTotalTime := 12,
        elapsedTime := 0 } 6
      (by norm_num) (by norm_num) (by norm_num) (by norm_num)).2.2.2
      (by decide)⟩

/-- C1: for a flux-kontext edit whose `imageUrl` is neither a data URL nor a
Vercel blob URL, the handler runs the linear recovery cascade before calling
Replicate: a passing HEAD check proceeds with the original URL; when the
check fails or throws and an `imageId` is given for a `replicate.delivery`
URL, the persisted permanent URL is looked up first and used when found;
otherwise the image is downloaded and re-encoded as a data URL; the 400
"Image URL expired or inaccessible" with the re-upload suggestion is
returned exactly when every recovery step fails, and then Replicate is
never called. -/
theorem editImage_url_recovery_cascade (w : RecoveryWorld) (url : String)
    (imageId : Option String) :
    (jsStartsWith url "data:" = true ∨
      jsIncludes url "blob.vercel-storage.com" = true →
      recoverImageUrl w url imageId = RecoveryResult.proceed url)
    ∧ (jsStartsWith url "data:" = false →
       jsIncludes url "blob.vercel-storage.com" = false →
       w.head = HeadOutcome.ok →
      recoverImageUrl w url imageId = RecoveryResult.proceed url)
    ∧ (∀ u, jsStartsWith url "data:" = false →
        jsIncludes url "blob.vercel-storage.com" = false →
        w.head ≠ HeadOutcome.ok → imageId.isSome = true →
        isReplicateDeliveryUrl url = true → w.db = some u →
      recoverImageUrl w url imageId = RecoveryResult.proceed u)
    ∧ (∀ d, jsStartsWith url "data:" = false →
        jsIncludes url "blob.vercel-storage.com" = false →
        w.head ≠ HeadOutcome.ok →
        (imageId.isSome = true → isReplicateDeliveryUrl url = true →
          w.db = none) →
        w.ensureResults.head? = some (some d) →
      recoverImageUrl w url imageId = RecoveryResult.proceed d)
    ∧ (jsStartsWith url "data:" = false →
       jsIncludes url "blob.vercel-storage.com" = false →
       w.head ≠ HeadOutcome.ok →
       (imageId.isSome = true → isReplicateDeliveryUrl url = true →
         w.db = none) →
       (∀ r ∈ w.ensureResults, r = none) →
      recoverImageUrl w url imageId = expiredResponse)
    ∧ (∀ err sug,
        recoverImageUrl w url imageId = RecoveryResult.expired err sug →
      jsStartsWith url "data:" = false ∧
      jsIncludes url "blob.vercel-storage.com" = false ∧
      w.head ≠ HeadOutcome.ok ∧
      (imageId.isSome = true → isReplicateDeliveryUrl url = true →
        w.db = none) ∧
      w.ensureResults.head?.getD none = none ∧
      err = "Image URL expired or inaccessible" ∧
      sug = "To edit this image, please save it to your device first, then upload it again.") := by
  obtain ⟨head, db, ens⟩ := w
  refine ⟨?_, ?_, ?_, ?_, ?_, ?_⟩
  · intro h
    rcases h with h | h <;> simp [recoverImageUrl, h]
  · intro h1 h2 hh
    simp only at hh
    simp [recoverImageUrl, h1, h2, hh]
  · intro u h1 h2 hh hid hrep hdb
    simp only at hh hdb
    cases head with
    | ok => exact absurd rfl hh
    | notOk st => simp [recoverImageUrl, h1, h2, hid, hrep, hdb]
    | throwErr =>
      simp [recoverImageUrl, recoveryCatch, h1, h2, hid, hrep, hdb]
  · intro d h1 h2 hh hdb hens
    simp only at hh hdb hens
    rcases ens with _ | ⟨r, rest⟩
    · simp at hens
    · simp only [List.head?, Option.some.injEq] at hens
      subst hens
      by_cases hid : (imageId.isSome && isReplicateDeliveryUrl url) = true
      · have hdbn : db = none := by
          simp only [Bool.and_eq_true] at hid
          exact hdb hid.1 hid.2
        cases head with
        | ok => exact absurd rfl hh
        | notOk st =>
          simp [recoverImageUrl, recoveryCatch, takeEnsure, h1, h2, hid,
            hdbn]
        | throwErr =>
          simp [recoverImageUrl, recoveryCatch, takeEnsure, h1, h2, hid,
            hdbn]
      · cases head with
        | ok => exact absurd rfl hh
        | notOk st =>
          simp [recoverImageUrl, recoveryCatch, takeEnsure, h1, h2, hid]
        | throwErr =>
          simp [recoverImageUrl, recoveryCatch, takeEnsure, h1, h2, hid]
  · intro h1 h2 hh hdb hens
    simp only at hh hdb hens
    have hstep : ∀ l ≠ ([] : List (Option String)),
        (∀ r ∈ l, r = none) → ∃ rest, l = none :: rest ∧
          ∀ r ∈ rest, r = none := by
      intro l hl ha
      rcases l with _ | ⟨r, rest⟩
      · exact absurd rfl hl
      · exact ⟨rest, by rw [ha r (by simp)],
          fun r hr => ha r (by simp [hr])⟩
    by_cases hid : (imageId.isSome && isReplicateDeliveryUrl url) = true
    · have hdbn : db = none := by
        simp only [Bool.and_eq_true] at hid
        exact hdb hid.1 hid.2
      cases head with
      | ok => exact absurd rfl hh
      | notOk st =>
        rcases ens with _ | ⟨r, rest⟩
        · simp [recoverImageUrl, recoveryCatch, takeEnsure, h1, h2, hid,
            hdbn]
        · have hr := hens r (by simp)
          subst hr
          rcases rest with _ | ⟨r2, rest2⟩
          · simp [recoverImageUrl, recoveryCatch, takeEnsure, h1, h2, hid,
              hdbn]
          · have hr2 := hens r2 (by simp)
            subst hr2
            simp [recoverImageUrl, recoveryCatch, takeEnsure, h1, h2, hid,
              hdbn]
      | throwErr =>
        rcases ens with _ | ⟨r, rest⟩
        · simp [recoverImageUrl, recoveryCatch, takeEnsure, h1, h2, hid,
            hdbn]
        · have hr := hens r (by simp)
          subst hr
          simp [recoverImageUrl, recoveryCatch, takeEnsure, h1, h2, hid,
            hdbn]
    · cases head with
      | ok => exact absurd rfl hh
      | notOk st =>
        rcases ens with _ | ⟨r, rest⟩
        · simp [recoverImageUrl, recoveryCatch, takeEnsure, h1, h2, hid]
        · have hr := hens r (by simp)
          subst hr
          rcases rest with _ | ⟨r2, rest2⟩
          · simp [recoverImageUrl, recoveryCatch, takeEnsure, h1, h2, hid]
          · have hr2 := hens r2 (by simp)
            subst hr2
            simp [recoverImageUrl, recoveryCatch, takeEnsure, h1, h2, hid]
      | throwErr =>
        rcases ens with _ | ⟨r, rest⟩
        · simp [recoverImageUrl, recoveryCatch, takeEnsure, h1, h2, hid]
        · have hr := hens r (by simp)
          subst hr
          simp [recoverImageUrl, recoveryCatch, takeEnsure, h1, h2, hid]
  · intro err sug h
    by_cases h1 : jsStartsWith url "data:" = true
    · simp [recoverImageUrl, h1] at h
    · by_cases h2 : jsIncludes url "blob.vercel-storage.com" = true
      · simp [recoverImageUrl, h2] at h
      · simp only [Bool.not_eq_true] at h1 h2
        by_cases hid : imageId.isSome = true ∧
            isReplicateDeliveryUrl url = true
        · cases db with
          | some u =>
            cases head with
            | ok => simp [recoverImageUrl, h1, h2] at h
            | notOk st =>
              simp [recoverImageUrl, recoveryCatch, h1, h2, hid.1,
                hid.2] at h
            | throwErr =>
              simp [recoverImageUrl, recoveryCatch, h1, h2, hid.1,
                hid.2] at h
          | none =>
            cases head with
            | ok => simp [recoverImageUrl, h1, h2] at h
            | notOk st =>
              rcases ens with _ | ⟨r, rest⟩
              · simp only [recoverImageUrl, recoveryCatch, takeEnsure, h1,
                  h2, hid.1, hid.2, expiredResponse, Bool.and_self,
                  if_true, Bool.not_false, Bool.and_true, and_self,
                  Option.isSome_some, RecoveryResult.expired.injEq] at h
                simp_all
              · cases r with
                | some d =>
                  simp [recoverImageUrl, recoveryCatch, takeEnsure, h1, h2,
                    hid.1, hid.2] at h
                | none =>
                  rcases rest with _ | ⟨r2, rest2⟩
                  · simp only [recoverImageUrl, recoveryCatch, takeEnsure,
                      h1, h2, hid.1, hid.2, expiredResponse, Bool.and_self,
                      if_true, Bool.not_false, Bool.and_true, and_self,
                      Option.isSome_some,
                      RecoveryResult.expired.injEq] at h
                    simp_all
                  · cases r2 with
                    | some d2 =>
                      simp [recoverImageUrl, recoveryCatch, takeEnsure,
                        h1, h2, hid.1, hid.2] at h
                    | none =>
                      simp only [recoverImageUrl, recoveryCatch, takeEnsure,
                        h1, h2, hid.1, hid.2, expiredResponse,
                        Bool.and_self, if_true, Bool.not_false,
                        Bool.and_true, and_self, Option.isSome_some,
                        RecoveryResult.expired.injEq] at h
                      simp_all
            | throwErr =>
              rcases ens with _ | ⟨r, rest⟩
              · simp only [recoverImageUrl, recoveryCatch, takeEnsure, h1,
                  h2, hid.1, hid.2, expiredResponse, Bool.and_self,
                  if_true, Bool.not_false, Bool.and_true, and_self,
                  Option.isSome_some, RecoveryResult.expired.injEq] at h
                simp_all
              · cases r with
                | some d =>
                  simp [recoverImageUrl, recoveryCatch, takeEnsure, h1, h2,
                    hid.1, hid.2] at h
                | none =>
                  simp only [recoverImageUrl, recoveryCatch, takeEnsure,
                    h1, h2, hid.1, hid.2, expiredResponse, Bool.and_self,
                    if_true, Bool.not_false, Bool.and_true, and_self,
                    Option.isSome_some, RecoveryResult.expired.injEq] at h
                  simp_all
        · have hdbv : imageId.isSome = true → isReplicateDeliveryUrl url =
              true → db = none :=
            fun ha hb => absurd ⟨ha, hb⟩ hid
          have hidb : (imageId.isSome && isReplicateDeliveryUrl url) =
              false := by
            cases ha : imageId.isSome <;>
              cases hb : isReplicateDeliveryUrl url <;> simp_all
          cases head with
          | ok => simp [recoverImageUrl, h1, h2] at h
          | notOk st =>
            rcases ens with _ | ⟨r, rest⟩
            · simp [recoverImageUrl, recoveryCatch, takeEnsure,
                expiredResponse, h1, h2, hidb] at h
              simp_all
            · cases r with
              | some d =>
                simp [recoverImageUrl, recoveryCatch, takeEnsure, h1, h2,
                  hidb] at h
              | none =>
                rcases rest with _ | ⟨r2, rest2⟩
                · simp [recoverImageUrl, recoveryCatch, takeEnsure,
                    expiredResponse, h1, h2, hidb] at h
                  simp_all
                · cases r2 with
                  | some d2 =>
                    simp [recoverImageUrl, recoveryCatch, takeEnsure, h1,
                      h2, hidb] at h
                  | none =>
                    simp [recoverImageUrl, recoveryCatch, takeEnsure,
                      expiredResponse, h1, h2, hidb] at h
                    simp_all
          | throwErr =>
            rcases ens with _ | ⟨r, rest⟩
            · simp [recoverImageUrl, recoveryCatch, takeEnsure,
                expiredResponse, h1, h2, hidb] at h
              simp_all
            · cases r with
              | some d =>
                simp [recoverImageUrl, recoveryCatch, takeEnsure, h1, h2,
                  hidb] at h
              | none =>
                simp [recoverImageUrl, recoveryCatch, takeEnsure,
                  expiredResponse, h1, h2, hidb] at h
                simp_all

/-- Witness for C1 at concrete worlds: with a failing HEAD check, no stored
permanent URL and failing downloads the handler returns the 400 payload,
while a stored permanent URL is used as soon as the database lookup finds
it. -/
theorem editImage_url_recovery_cascade_witness :
    recoverImageUrl
      { head := HeadOutcome.notOk 404, db := none,
        ensureResults := [none, none] }
      "https://replicate.delivery/pbxt/abc.png" (some "img_1") =
      expiredResponse
    ∧ recoverImageUrl
      { head := HeadOutcome.notOk 404, db := some "https://store/x.png",
        ensureResults := [] }
      "https://replicate.delivery/pbxt/abc.png" (some "img_1") =
      RecoveryResult.proceed "https://store/x.png" :=
  ⟨(editImage_url_recovery_cascade
      { head := HeadOutcome.notOk 404, db := none,
        ensureResults := [none, none] }
      "https://replicate.delivery/pbxt/abc.png" (some "img_1")).2.2.2.2.1
      (by decide) (by decide) (by decide) (fun _ _ => rfl) (by decide),
   (editImage_url_recovery_cascade
      { head := HeadOutcome.notOk 404, db := some "https://store/x.png",
        ensureResults := [] }
      "https://replicate.delivery/pbxt/abc.png" (some "img_1")).2.2.1
      "https://store/x.png" (by decide) (by decide) (by decide) (by decide)
      (by decide) rfl⟩

theorem shrinkToFit_post (sizeOf : List StoredImage → Nat) (nowIso : String)
    (l : List ImageUtils.GeneratedImage) :
    sizeOf (prepareForStorage nowIso (shrinkToFit sizeOf nowIso l)) ≤
      maxStorageSize ∨ (shrinkToFit sizeOf nowIso l).length ≤ 5 := by
  have H : ∀ (n : Nat) (l : List ImageUtils.GeneratedImage), l.length ≤ n →
      sizeOf (prepareForStorage nowIso (shrinkToFit sizeOf nowIso l)) ≤
        maxStorageSize ∨ (shrinkToFit sizeOf nowIso l).length ≤ 5 := by
    intro n
    induction n with
    | zero =>
      intro l hl
      rw [shrinkToFit]
      split
      · rename_i hcond
        omega
      · rename_i hcond
        right
        omega
    | succ n ih =>
      intro l hl
      rw [shrinkToFit]
      split
      · rename_i hcond
        apply ih
        simp only [jsSliceLast, List.length_drop]
        omega
      · rename_i hcond
        by_cases hs : maxStorageSize < sizeOf (prepareForStorage nowIso l)
        · right
          by_cases h5 : 5 < l.length
          · exact absurd ⟨hs, h5⟩ hcond
          · omega
        · left
          omega
  exact H l.length l le_rfl

theorem shrinkToFit_suffix (sizeOf : List StoredImage → Nat)
    (nowIso : String) (l : List ImageUtils.GeneratedImage) :
    shrinkToFit sizeOf nowIso l <:+ l := by
  have H : ∀ (n : Nat) (l : List ImageUtils.GeneratedImage), l.length ≤ n →
      shrinkToFit sizeOf nowIso l <:+ l := by
    intro n
    induction n with
    | zero =>
      intro l hl
      rw [shrinkToFit]
      split
      · rename_i hcond
        omega
      · exact List.suffix_refl _
    | succ n ih =>
      intro l hl
      rw [shrinkToFit]
      split
      · rename_i hcond
        refine (ih _ ?_).trans (jsSliceLast_suffix _ _)
        simp only [jsSliceLast, List.length_drop]
        omega
      · exact List.suffix_refl _
  exact H l.length l le_rfl

theorem prepare_mem_facts (nowIso : String)
    (images l : List ImageUtils.GeneratedImage)
    (hsub : l <:+ images.filter keepImage) :
    ∀ s ∈ prepareForStorage nowIso l,
      s.url.length ≤ 500 ∧ s.prompt.length ≤ 200 ∧
      ∃ img, img ∈ images ∧ keepImage img = true ∧
        s = serializeImage nowIso img := by
  intro s hs
  simp only [prepareForStorage, List.mem_map] at hs
  obtain ⟨img, hm, rfl⟩ := hs
  have hmf : img ∈ images.filter keepImage := hsub.sublist.subset hm
  rw [List.mem_filter] at hmf
  refine ⟨?_, ?_, img, hmf.1, hmf.2, rfl⟩ <;>
    simp only [serializeImage] <;> exact jsSubstring_length_le _ _

/-- C7: `saveGeneratedImages` drops generating / url-less / data-URL images
first and leaves `localStorage` untouched when nothing remains; otherwise
it stores at most the 30 most recent survivors with urls truncated to 500
characters and prompts to 200, re-slices to the most recent 70% while the
serialized size exceeds 4MB with more than 5 images left, and on a quota
error clears the stored keys and retries with the 10 most recent; it is a
total function of its inputs, so it never throws. -/
theorem saveGeneratedImages_spec (sizeOf : List StoredImage → Nat)
    (quota1 quota2 : Bool) (nowIso : String)
    (images : List ImageUtils.GeneratedImage) :
    ((images.filter keepImage).length = 0 →
      ImageUtils.saveGeneratedImages sizeOf quota1 quota2 nowIso images = [])
    ∧ (∀ key l, StorageAction.setItem key l ∈
        ImageUtils.saveGeneratedImages sizeOf quota1 quota2 nowIso images →
      l.length ≤ 30 ∧ ∀ s ∈ l,
        s.url.length ≤ 500 ∧ s.prompt.length ≤ 200 ∧
        ∃ img, img ∈ images ∧ keepImage img = true ∧
          s = serializeImage nowIso img)
    ∧ (sizeOf (prepareForStorage nowIso (shrinkToFit sizeOf nowIso
          (jsSliceLast (images.filter keepImage) 30))) ≤ maxStorageSize ∨
        (shrinkToFit sizeOf nowIso
          (jsSliceLast (images.filter keepImage) 30)).length ≤ 5)
    ∧ shrinkToFit sizeOf nowIso (jsSliceLast (images.filter keepImage) 30)
        <:+ images.filter keepImage
    ∧ ((images.filter keepImage).length ≠ 0 → quota1 = false →
      ImageUtils.saveGeneratedImages sizeOf quota1 quota2 nowIso images =
        [StorageAction.setItem "generatedImages" (prepareForStorage nowIso
          (shrinkToFit sizeOf nowIso
            (jsSliceLast (images.filter keepImage) 30)))])
    ∧ ((images.filter keepImage).length ≠ 0 → quota1 = true →
      ImageUtils.saveGeneratedImages sizeOf quota1 quota2 nowIso images =
        [StorageAction.setItem "generatedImages" (prepareForStorage nowIso
          (shrinkToFit sizeOf nowIso
            (jsSliceLast (images.filter keepImage) 30))),
         StorageAction.removeItem "generatedImages",
         StorageAction.removeItem "imageCache",
         StorageAction.setItem "generatedImages" (prepareForStorage nowIso
          (jsSliceLast (images.filter keepImage) 10))]) := by
  have hsub30 : jsSliceLast (images.filter keepImage) 30 <:+
      images.filter keepImage := jsSliceLast_suffix _ _
  have hfit : shrinkToFit sizeOf nowIso
      (jsSliceLast (images.filter keepImage) 30) <:+
      images.filter keepImage :=
    (shrinkToFit_suffix _ _ _).trans hsub30
  have hfitlen : (shrinkToFit sizeOf nowIso
      (jsSliceLast (images.filter keepImage) 30)).length ≤ 30 :=
    le_trans (shrinkToFit_suffix _ _ _).length_le
      (jsSliceLast_length_le _ _)
  refine ⟨?_, ?_, shrinkToFit_post _ _ _, hfit, ?_, ?_⟩
  · intro h
    simp [ImageUtils.saveGeneratedImages, h]
  · intro key l hmem
    by_cases hz : (images.filter keepImage).length = 0
    · simp [ImageUtils.saveGeneratedImages, hz] at hmem
    · by_cases hq : quota1 = true
      · simp only [ImageUtils.saveGeneratedImages, if_neg hz, hq,
          Bool.not_true, Bool.false_eq_true, if_false, List.mem_cons,
          List.not_mem_nil, or_false] at hmem
        rcases hmem with hmem | hmem | hmem | hmem
        · obtain ⟨-, rfl⟩ : key = "generatedImages" ∧
              l = prepareForStorage nowIso (shrinkToFit sizeOf nowIso
                (jsSliceLast (images.filter keepImage) 30)) := by
            simpa using hmem
          refine ⟨?_, prepare_mem_facts nowIso images _ hfit⟩
          simpa [prepareForStorage] using hfitlen
        · simp at hmem
        · simp at hmem
        · obtain ⟨-, rfl⟩ : key = "generatedImages" ∧
              l = prepareForStorage nowIso
                (jsSliceLast (images.filter keepImage) 10) := by
            simpa using hmem
          refine ⟨?_, prepare_mem_facts nowIso images _
            (jsSliceLast_suffix _ _)⟩
          have := jsSliceLast_length_le (images.filter keepImage) 10
          simp only [prepareForStorage, List.length_map]
          omega
      · simp only [ImageUtils.saveGeneratedImages, if_neg hz,
          Bool.not_eq_true] at hmem
        rw [if_pos] at hmem
        · simp only [List.mem_singleton] at hmem
          obtain ⟨-, rfl⟩ : key = "generatedImages" ∧
              l = prepareForStorage nowIso (shrinkToFit sizeOf nowIso
                (jsSliceLast (images.filter keepImage) 30)) := by
            simpa using hmem
          refine ⟨?_, prepare_mem_facts nowIso images _ hfit⟩
          simpa [prepareForStorage] using hfitlen
        · simp [Bool.not_eq_true] at hq
          simp [hq]
  · intro hz hq
    simp [ImageUtils.saveGeneratedImages, hz, hq]
  · intro hz hq
    simp [ImageUtils.saveGeneratedImages, hz, hq]

/-- Witness for C7 at a concrete input: a list containing one in-progress
image, one data-URL image and one saved image stores exactly the one
surviving image; with only generating images nothing is written. -/
theorem saveGeneratedImages_spec_witness :
    ImageUtils.saveGeneratedImages (fun _ => 0) false false "2025-01-01"
      [{ id := "a", url := "http://x/1.png", prompt := "p1",
         timestamp := some "T1", quality := "standard", model := "m",
         isGenerating := true },
       { id := "b", url := "data:image/png;base64,xyz", prompt := "p2",
         timestamp := some "T2", quality := "standard", model := "m" },
       { id := "c", url := "http://x/3.png", prompt := "p3",
         timestamp := some "T3", quality := "standard", model := "m" }] =
      [StorageAction.setItem "generatedImages" (prepareForStorage
        "2025-01-01" (shrinkToFit (fun _ => 0) "2025-01-01" (jsSliceLast
          ([{ id := "a", url := "http://x/1.png", prompt := "p1",
              timestamp := some "T1", quality := "standard", model := "m",
              isGenerating := true },
            { id := "b", url := "data:image/png;base64,xyz", prompt := "p2",
              timestamp := some "T2", quality := "standard", model := "m" },
            { id := "c", url := "http://x/3.png", prompt := "p3",
              timestamp := some "T3", quality := "standard",
              model := "m" }].filter keepImage) 30)))]
    ∧ ImageUtils.saveGeneratedImages (fun _ => 0) true true "2025-01-01"
      [{ id := "a", url := "http://x/1.png", prompt := "p1",
         timestamp := some "T1", quality := "standard", model := "m",
         isGenerating := true }] = [] :=
  ⟨(saveGeneratedImages_spec (fun _ => 0) false false "2025-01-01"
      _).2.2.2.2.1 (by decide) rfl,
   (saveGeneratedImages_spec (fun _ => 0) true true "2025-01-01"
      _).1 (by decide)⟩

theorem isCompletedPoll_result_false (s : String) (outs : List String)
    (e : Option String) (hc : ¬(s = "completed" ∧ outs ≠ [])) :
    isCompletedPoll (PollOutcome.result s outs e) = false := by
  simp only [isCompletedPoll]
  by_cases hs : s = "completed"
  · have houts : outs = [] := by
      by_cases ho : outs = []
      · exact ho
      · exact absurd ⟨hs, ho⟩ hc
    subst houts
    simp
  · simp [hs]

theorem exists_poll_shift (P : Nat → Prop) (a M : Nat) (hP : ¬P (a + 1)) :
    (∃ i, a < i ∧ i ≤ M ∧ P i) ↔ ∃ i, a + 1 < i ∧ i ≤ M ∧ P i := by
  constructor
  · rintro ⟨i, h1, h2, h3⟩
    rcases Nat.lt_or_ge (a + 1) i with hlt | hge
    · exact ⟨i, hlt, h2, h3⟩
    · have hia : i = a + 1 := by omega
      subst hia
      exact absurd h3 hP
  · rintro ⟨i, h1, h2, h3⟩
    exact ⟨i, by omega, h2, h3⟩

theorem wavespeed_loop_attempts_le (polls : Nat → PollOutcome) :
    ∀ fuel attempts, fuel + attempts = maxAttempts →
      (pollLoopGo polls fuel attempts).1 ≤ maxAttempts := by
  intro fuel
  induction fuel with
  | zero =>
    intro attempts h
    simp only [pollLoopGo]
    omega
  | succ n ih =>
    intro attempts h
    cases hp : polls (attempts + 1) with
    | httpNotOk st =>
      simp only [pollLoopGo, hp]
      exact ih _ (by omega)
    | result s outs e =>
      simp only [pollLoopGo, hp]
      by_cases hc : s = "completed" ∧ outs ≠ []
      · rw [dif_pos hc]
        simp only [maxAttempts] at h ⊢
        omega
      · rw [dif_neg hc]
        by_cases hf : s = "failed"
        · by_cases hm : maxAttempts ≤ attempts + 1
          · rw [if_pos hf, if_pos hm]
            simp only [maxAttempts] at h ⊢
            omega
          · rw [if_pos hf, if_neg hm]
            exact ih _ (by omega)
        · rw [if_neg hf]
          exact ih _ (by omega)
    | throwErr m =>
      simp only [pollLoopGo, hp]
      by_cases hm : maxAttempts ≤ attempts + 1
      · rw [if_pos hm]
        simp only [maxAttempts] at h ⊢
        omega
      · rw [if_neg hm]
        exact ih _ (by omega)

theorem wavespeed_loop_ok_iff (polls : Nat → PollOutcome) :
    ∀ fuel attempts, fuel + attempts = maxAttempts →
      ((∃ o, (pollLoopGo polls fuel attempts).2 = Except.ok o) ↔
        ∃ i, attempts < i ∧ i ≤ maxAttempts ∧
          isCompletedPoll (polls i) = true) := by
  intro fuel
  induction fuel with
  | zero =>
    intro attempts h
    simp only [pollLoopGo, maxAttempts] at h ⊢
    constructor
    · rintro ⟨o, ho⟩
      simp at ho
    · rintro ⟨i, h1, h2, -⟩
      omega
  | succ n ih =>
    intro attempts h
    cases hp : polls (attempts + 1) with
    | httpNotOk st =>
      simp only [pollLoopGo, hp]
      rw [exists_poll_shift _ _ _ (by simp [hp, isCompletedPoll])]
      exact ih _ (by omega)
    | result s outs e =>
      simp only [pollLoopGo, hp]
      by_cases hc : s = "completed" ∧ outs ≠ []
      · rw [dif_pos hc]
        refine iff_of_true ⟨outs.head hc.2, rfl⟩
          ⟨attempts + 1, by omega, by simp only [maxAttempts] at h ⊢; omega,
            ?_⟩
        simp only [hp, isCompletedPoll, hc.1]
        simpa using hc.2
      · rw [dif_neg hc]
        have hPf : isCompletedPoll (polls (attempts + 1)) = false := by
          rw [hp]
          exact isCompletedPoll_result_false s outs e hc
        by_cases hf : s = "failed"
        · by_cases hm : maxAttempts ≤ attempts + 1
          · rw [if_pos hf, if_pos hm]
            constructor
            · rintro ⟨o, ho⟩
              simp at ho
            · rintro ⟨i, h1, h2, h3⟩
              have hia : i = attempts + 1 := by
                simp only [maxAttempts] at h2 hm
                omega
              subst hia
              rw [hPf] at h3
              cases h3
          · rw [if_pos hf, if_neg hm]
            rw [exists_poll_shift _ _ _ (by simp [hPf])]
            exact ih _ (by omega)
        · rw [if_neg hf]
          rw [exists_poll_shift _ _ _ (by simp [hPf])]
          exact ih _ (by omega)
    | throwErr m =>
      simp only [pollLoopGo, hp]
      have hPf : isCompletedPoll (polls (attempts + 1)) = false := by
        simp [hp, isCompletedPoll]
      by_cases hm : maxAttempts ≤ attempts + 1
      · rw [if_pos hm]
        constructor
        · rintro ⟨o, ho⟩
          simp at ho
        · rintro ⟨i, h1, h2, h3⟩
          have hia : i = attempts + 1 := by
            simp only [maxAttempts] at h2 hm
            omega
          subst hia
          rw [hPf] at h3
          cases h3
      · rw [if_neg hm]
        rw [exists_poll_shift _ _ _ (by simp [hPf])]
        exact ih _ (by omega)

theorem wavespeed_loop_no_completed (polls : Nat → PollOutcome) :
    ∀ fuel attempts, fuel + attempts = maxAttempts → 1 ≤ fuel →
      (∀ i, attempts < i → i ≤ maxAttempts →
        isCompletedPoll (polls i) = false) →
      (pollLoopGo polls fuel attempts).2 =
        Except.error (finalPollError (polls maxAttempts)) := by
  intro fuel
  induction fuel with
  | zero =>
    intro attempts h h1
    omega
  | succ n ih =>
    intro attempts h h1 hno
    have hnc : isCompletedPoll (polls (attempts + 1)) = false :=
      hno (attempts + 1) (by omega) (by omega)
    by_cases hn0 : n = 0
    · subst hn0
      have ha : attempts + 1 = maxAttempts := by omega
      cases hp : polls (attempts + 1) with
      | httpNotOk st =>
        simp only [pollLoopGo, hp, ha.symm ▸ hp]
        rw [← ha, hp] at *
        simp [pollLoopGo, finalPollError, ← ha, hp]
      | result s outs e =>
        have hc : ¬(s = "completed" ∧ outs ≠ []) := by
          intro hcc
          rw [hp] at hnc
          simp only [isCompletedPoll, hcc.1] at hnc
          rcases outs with _ | ⟨o, rest⟩
          · exact hcc.2 rfl
          · simp at hnc
        simp only [pollLoopGo, hp]
        rw [dif_neg hc]
        by_cases hf : s = "failed"
        · rw [if_pos hf, if_pos (le_of_eq ha.symm)]
          rw [← ha, hp]
          simp [finalPollError, hf]
        · rw [if_neg hf]
          simp only [pollLoopGo]
          rw [← ha, hp]
          simp [finalPollError, hf]
      | throwErr m =>
        simp only [pollLoopGo, hp]
        rw [if_pos (le_of_eq ha.symm)]
        rw [← ha, hp]
        simp [finalPollError]
    · have hm : ¬(maxAttempts ≤ attempts + 1) := by
        simp only [maxAttempts] at h ⊢
        omega
      have hstep : ∀ i, attempts + 1 < i → i ≤ maxAttempts →
          isCompletedPoll (polls i) = false :=
        fun i hi1 hi2 => hno i (by omega) hi2
      cases hp : polls (attempts + 1) with
      | httpNotOk st =>
        simp only [pollLoopGo, hp]
        exact ih _ (by omega) (by omega) hstep
      | result s outs e =>
        have hc : ¬(s = "completed" ∧ outs ≠ []) := by
          intro hcc
          rw [hp] at hnc
          simp only [isCompletedPoll, hcc.1] at hnc
          rcases outs with _ | ⟨o, rest⟩
          · exact hcc.2 rfl
          · simp at hnc
        simp only [pollLoopGo, hp]
        rw [dif_neg hc]
        by_cases hf : s = "failed"
        · rw [if_pos hf, if_neg hm]
          exact ih _ (by omega) (by omega) hstep
        · rw [if_neg hf]
          exact ih _ (by omega) (by omega) hstep
      | throwErr m =>
        simp only [pollLoopGo, hp]
        rw [if_neg hm]
        exact ih _ (by omega) (by omega) hstep

theorem wavespeed_loop_first_completed (polls : Nat → PollOutcome) :
    ∀ fuel attempts, fuel + attempts = maxAttempts →
      ∀ i, attempts < i → i ≤ maxAttempts →
        isCompletedPoll (polls i) = true →
        (∀ j, attempts < j → j < i → isCompletedPoll (polls j) = false) →
      ∃ o, headOutput (polls i) = some o ∧
        (pollLoopGo polls fuel attempts).2 = Except.ok o := by
  intro fuel
  induction fuel with
  | zero =>
    intro attempts h i hi1 hi2 _ _
    simp only [maxAttempts] at h hi2
    omega
  | succ n ih =>
    intro attempts h i hi1 hi2 hcomp hmin
    by_cases hia : i = attempts + 1
    · subst hia
      cases hp : polls (attempts + 1) with
      | httpNotOk st =>
        rw [hp] at hcomp
        simp [isCompletedPoll] at hcomp
      | throwErr m =>
        rw [hp] at hcomp
        simp [isCompletedPoll] at hcomp
      | result s outs e =>
        rw [hp] at hcomp
        simp only [isCompletedPoll, Bool.and_eq_true, beq_iff_eq,
          Bool.not_eq_true'] at hcomp
        rcases outs with _ | ⟨o, rest⟩
        · simp at hcomp
        · refine ⟨o, by simp [hp, headOutput], ?_⟩
          simp only [pollLoopGo, hp]
          rw [dif_pos ⟨hcomp.1, by simp⟩]
          simp
    · have hlt : attempts + 1 < i := by omega
      have hnc : isCompletedPoll (polls (attempts + 1)) = false :=
        hmin (attempts + 1) (by omega) hlt
      have hm : ¬(maxAttempts ≤ attempts + 1) := by
        simp only [maxAttempts] at hi2 ⊢
        omega
      have hstep : ∀ j, attempts + 1 < j → j < i →
          isCompletedPoll (polls j) = false :=
        fun j hj1 hj2 => hmin j (by omega) hj2
      cases hp : polls (attempts + 1) with
      | httpNotOk st =>
        simp only [pollLoopGo, hp]
        exact ih _ (by omega) i hlt hi2 hcomp hstep
      | result s outs e =>
        have hc : ¬(s = "completed" ∧ outs ≠ []) := by
          intro hcc
          rw [hp] at hnc
          simp only [isCompletedPoll, hcc.1] at hnc
          rcases outs with _ | ⟨o, rest⟩
          · exact hcc.2 rfl
          · simp at hnc
        simp only [pollLoopGo, hp]
        rw [dif_neg hc]
        by_cases hf : s = "failed"
        · rw [if_pos hf, if_neg hm]
          exact ih _ (by omega) i hlt hi2 hcomp hstep
        · rw [if_neg hf]
          exact ih _ (by omega) i hlt hi2 hcomp hstep
      | throwErr m =>
        simp only [pollLoopGo, hp]
        rw [if_neg hm]
        exact ih _ (by omega) i hlt hi2 hcomp hstep

/-- C2 counterexample: the claim says a poll reporting status `failed`
makes `generateMultiImageEdit` return `success: false`, but the `throw` on
a failed status is caught by the per-attempt `catch (pollError)` and only
rethrown at the 120th attempt — with a `failed` poll on attempt 1 and a
`completed` poll on attempt 2 the function returns `success: true`. -/
theorem wavespeed_failed_poll_not_terminal_cex :
    (fun n => if n = 1 then PollOutcome.result "failed" [] none
      else if n = 2 then
        PollOutcome.result "completed" ["https://cdn.example/out.png"] none
      else PollOutcome.httpNotOk 500) 1 =
      PollOutcome.result "failed" [] none
    ∧ generateMultiImageEdit
      (fun n => if n = 1 then PollOutcome.result "failed" [] none
        else if n = 2 then
          PollOutcome.result "completed" ["https://cdn.example/out.png"] none
        else PollOutcome.httpNotOk 500) "task-1" =
      { success := true, imageUrl := some "https://cdn.example/out.png",
        taskId := some "task-1", error := none } :=
  ⟨rfl, by decide⟩

/-- C2 (amended): the poll loop performs at most 120 polls and always
returns a `WaveSpeedMultiImageResponse`; it returns `success: true` with
the first output URL exactly when some poll among the 120 reports
`completed` with non-empty outputs (a `failed` poll before the 120th
attempt is swallowed by the per-attempt catch and polling continues); when
no poll reports `completed`, it returns `success: false` whose error is
the 120th poll's own error when that poll reported `failed` or threw, and
"Task timed out after 2 minutes" otherwise. -/
theorem wavespeed_poll_loop_amended (polls : Nat → PollOutcome)
    (taskId : String) :
    pollsUsed polls ≤ maxAttempts
    ∧ ((generateMultiImageEdit polls taskId).success = true ↔
        ∃ i, 1 ≤ i ∧ i ≤ maxAttempts ∧ isCompletedPoll (polls i) = true)
    ∧ ((∀ i, 1 ≤ i → i ≤ maxAttempts → isCompletedPoll (polls i) = false) →
        generateMultiImageEdit polls taskId =
          { success := false, imageUrl := none, taskId := none,
            error := some (finalPollError (polls maxAttempts)) })
    ∧ (∀ i, 1 ≤ i → i ≤ maxAttempts → isCompletedPoll (polls i) = true →
        (∀ j, 1 ≤ j → j < i → isCompletedPoll (polls j) = false) →
        generateMultiImageEdit polls taskId =
          { success := true, imageUrl := headOutput (polls i),
            taskId := some taskId, error := none }) := by
  have hok : (generateMultiImageEdit polls taskId).success = true ↔
      ∃ o, (pollLoopGo polls maxAttempts 0).2 = Except.ok o := by
    unfold generateMultiImageEdit
    cases hres : (pollLoopGo polls maxAttempts 0).2 with
    | ok url => simp
    | error e => simp
  refine ⟨wavespeed_loop_attempts_le polls maxAttempts 0 rfl, ?_, ?_, ?_⟩
  · rw [hok, wavespeed_loop_ok_iff polls maxAttempts 0 rfl]
    constructor
    · rintro ⟨i, h1, h2, h3⟩
      exact ⟨i, by omega, h2, h3⟩
    · rintro ⟨i, h1, h2, h3⟩
      exact ⟨i, by omega, h2, h3⟩
  · intro hno
    have hC := wavespeed_loop_no_completed polls maxAttempts 0 rfl
      (by decide) (fun i hi1 hi2 => hno i (by omega) hi2)
    simp [generateMultiImageEdit, hC]
  · intro i h1 h2 h3 h4
    obtain ⟨o, ho, hres⟩ := wavespeed_loop_first_completed polls
      maxAttempts 0 rfl i (by omega) h2 h3
      (fun j hj1 hj2 => h4 j (by omega) hj2)
    simp [generateMultiImageEdit, hres, ho]

/-- Witness for the amended C2: with every poll returning a non-ok HTTP
response, the loop performs at most 120 polls and times out with the fixed
message. -/
theorem wavespeed_poll_loop_amended_witness :
    pollsUsed (fun _ => PollOutcome.httpNotOk 500) ≤ maxAttempts
    ∧ generateMultiImageEdit (fun _ => PollOutcome.httpNotOk 500) "t" =
      { success := false, imageUrl := none, taskId := none,
        error := some (finalPollError (PollOutcome.httpNotOk 500)) } :=
  ⟨(wavespeed_poll_loop_amended (fun _ => PollOutcome.httpNotOk 500)
      "t").1,
   (wavespeed_poll_loop_amended (fun _ => PollOutcome.httpNotOk 500)
      "t").2.2.1 (fun i h1 h2 => rfl)⟩
